import Mathlib

/-!
Verification of the Slack knowledge-base bot (packages/slack-bot/main.py).

The module registers one Slack event handler, `handle_message(event, say)`,
which answers direct messages by passing the message text to the external
collaborator `knowledge_base.get_answer` and sending the returned string via
the framework-supplied reply capability `say`.  The HTTP entry point
`slack_bot(request)` delegates to the Bolt request handler.

We embed `handle_message` as a function from the event record to the event
it leaves behind (the body never assigns to it) together with the sequence
of external calls it makes (collaborator lookups and replies) and its
outcome (normal return, or the Python exception that propagates).  Dict
access `event[key]` is embedded as a fallible read that raises `KeyError`
on a missing key.  The external collaborator is a parameter: any function
from the text to either an answer string or a raised error.
-/

namespace SlackBot

/-- A Python exception as visible to this module: a `KeyError(key)` raised
by a dict access, or an arbitrary error raised by the external lookup
collaborator. -/
inductive PyError where
  | keyError (key : String)
  | raised (msg : String)
deriving DecidableEq, Repr

/-- One external call made by the handler: an invocation of the lookup
collaborator `knowledge_base.get_answer` with its argument, or an
invocation of the reply capability `say` with its message. -/
inductive Call where
  | lookup (arg : String)
  | say (msg : String)
deriving DecidableEq, Repr

/-- The observable result of one run of the handler: the external calls it
made, in order, and whether it returned normally or an exception
propagated out of it. -/
structure RunResult where
  trace : List Call
  outcome : Except PyError Unit
deriving Repr

/-- A Slack event, i.e. the dict the framework passes to the handler.
`channel_type` and `text` are the two keys the handler reads (a missing
key is `none`); `extra` stands for all other entries of the event dict. -/
structure Event where
  channel_type : Option String
  text : Option String
  extra : List (String × String)
deriving DecidableEq, Repr

/-- Embedding of the dict access `event[key]`: a present key yields its
value, a missing key raises `KeyError(key)`. -/
def dictGet (v : Option String) (key : String) : Except PyError String :=
  match v with
  | some s => Except.ok s
  | none => Except.error (PyError.keyError key)

/-- Embedding of `handle_message(event, say)` from main.py:

    if event["channel_type"] == "im":
        text = event["text"]
        say(knowledge_base.get_answer(text))

The event is threaded through explicitly (the body never mutates it); the
external collaborator `get_answer` is a parameter that may raise; each
collaborator call and each `say` call is recorded in the trace, and an
uncaught exception ends the run with that error as the outcome. -/
def handle_message (get_answer : String → Except PyError String)
    (event : Event) : Event × RunResult :=
  match dictGet event.channel_type "channel_type" with
  | Except.error e => (event, ⟨[], Except.error e⟩)
  | Except.ok ct =>
    if ct = "im" then
      match dictGet event.text "text" with
      | Except.error e => (event, ⟨[], Except.error e⟩)
      | Except.ok text =>
        match get_answer text with
        | Except.error e => (event, ⟨[Call.lookup text], Except.error e⟩)
        | Except.ok answer =>
          (event, ⟨[Call.lookup text, Call.say answer], Except.ok ()⟩)
    else
      (event, ⟨[], Except.ok ()⟩)

/-- The Bolt `SlackRequestHandler`: from this module's point of view it is
an opaque object exposing `handle : request → response`. -/
structure SlackRequestHandler (Req Resp : Type) where
  handle : Req → Resp

/-- Embedding of the HTTP entry point `slack_bot(request)` from main.py:

    return handler.handle(request)
-/
def slack_bot {Req Resp : Type} (handler : SlackRequestHandler Req Resp)
    (request : Req) : Resp :=
  handler.handle request

/-- Number of lookup-collaborator invocations in a trace. -/
def countLookup : List Call → Nat
  | [] => 0
  | Call.lookup _ :: tl => countLookup tl + 1
  | Call.say _ :: tl => countLookup tl

/-- Number of reply (`say`) invocations in a trace. -/
def countSay : List Call → Nat
  | [] => 0
  | Call.say _ :: tl => countSay tl + 1
  | Call.lookup _ :: tl => countSay tl

/-- The calls made by two successive invocations of the handler on the same
event with the same collaborator.  The handler keeps no state between
invocations, so the combined behaviour is just the two independent runs in
sequence. -/
def twiceTrace (get_answer : String → Except PyError String)
    (event : Event) : List Call :=
  (handle_message get_answer event).2.trace ++
    (handle_message get_answer event).2.trace

/-- A concrete collaborator that always answers, used to instantiate
universally quantified theorems at a concrete input. -/
def gaOk : String → Except PyError String :=
  fun t => Except.ok ("answer: " ++ t)

/-- A concrete collaborator that always raises, used to instantiate
universally quantified theorems at a concrete input. -/
def gaBoom : String → Except PyError String :=
  fun _ => Except.error (PyError.raised "boom")

/-- Claim C1: for every event whose channel_type field equals "im" and whose
text field is a non-empty string T, when the collaborator returns A on T,
handle_message invokes the lookup collaborator exactly once with the
unmodified argument T and invokes say exactly once with exactly the string
the collaborator returned: the run makes exactly the calls
[lookup T, say A] and returns normally. -/
theorem c1_im_nonempty_text_one_lookup_one_say
    (get_answer : String → Except PyError String) (event : Event)
    (T A : String)
    (hct : event.channel_type = some "im")
    (htx : event.text = some T)
    (_hne : T ≠ "")
    (hga : get_answer T = Except.ok A) :
    (handle_message get_answer event).2.trace = [Call.lookup T, Call.say A] ∧
    (handle_message get_answer event).2.outcome = Except.ok () := by
  simp [handle_message, dictGet, hct, htx, hga]

/-- Claim C1 instantiated at a concrete event and collaborator. -/
theorem c1_im_nonempty_text_one_lookup_one_say_witness :
    (handle_message gaOk ⟨some "im", some "What is the refund policy?", []⟩).2.trace
      = [Call.lookup "What is the refund policy?",
         Call.say ("answer: " ++ "What is the refund policy?")] ∧
    (handle_message gaOk ⟨some "im", some "What is the refund policy?", []⟩).2.outcome
      = Except.ok () :=
  c1_im_nonempty_text_one_lookup_one_say gaOk
    ⟨some "im", some "What is the refund policy?", []⟩
    "What is the refund policy?" ("answer: " ++ "What is the refund policy?")
    rfl rfl (by decide) rfl

/-- Claim C2: for every event whose channel_type field is present but not
equal to "im", handle_message makes no external call at all (neither the
lookup collaborator nor say) and returns normally: the event is silently
ignored. -/
theorem c2_non_im_ignored
    (get_answer : String → Except PyError String) (event : Event)
    (ct : String)
    (hct : event.channel_type = some ct)
    (hne : ct ≠ "im") :
    (handle_message get_answer event).2.trace = [] ∧
    (handle_message get_answer event).2.outcome = Except.ok () := by
  simp [handle_message, dictGet, hct, hne]

/-- Claim C2 instantiated at a concrete channel event. -/
theorem c2_non_im_ignored_witness :
    (handle_message gaOk ⟨some "channel", some "hello everyone", []⟩).2.trace = [] ∧
    (handle_message gaOk ⟨some "channel", some "hello everyone", []⟩).2.outcome
      = Except.ok () :=
  c2_non_im_ignored gaOk ⟨some "channel", some "hello everyone", []⟩
    "channel" rfl (by decide)

/-- Claim C3: for every HTTP request r, the entry point slack_bot returns
exactly handler.handle(r), the response the framework's request handler
produces, with no transformation added. -/
theorem c3_slack_bot_delegates {Req Resp : Type}
    (handler : SlackRequestHandler Req Resp) (r : Req) :
    slack_bot handler r = handler.handle r :=
  rfl

/-- Claim C4: for every event with channel_type "im" and text T present, if
the lookup collaborator raises an error e, the handler performs no error
handling: e propagates out of the run as its outcome, the collaborator was
invoked (once, with T) and say was never invoked. -/
theorem c4_lookup_error_propagates
    (get_answer : String → Except PyError String) (event : Event)
    (T : String) (e : PyError)
    (hct : event.channel_type = some "im")
    (htx : event.text = some T)
    (hga : get_answer T = Except.error e) :
    (handle_message get_answer event).2.trace = [Call.lookup T] ∧
    (handle_message get_answer event).2.outcome = Except.error e := by
  simp [handle_message, dictGet, hct, htx, hga]

/-- Claim C4 instantiated at a concrete event and a raising collaborator. -/
theorem c4_lookup_error_propagates_witness :
    (handle_message gaBoom ⟨some "im", some "hi", []⟩).2.trace
      = [Call.lookup "hi"] ∧
    (handle_message gaBoom ⟨some "im", some "hi", []⟩).2.outcome
      = Except.error (PyError.raised "boom") :=
  c4_lookup_error_propagates gaBoom ⟨some "im", some "hi", []⟩
    "hi" (PyError.raised "boom") rfl rfl rfl

/-- Claim C5: for every event with channel_type "im" but no text field, the
read of event["text"] raises KeyError("text") which propagates, and
neither the lookup collaborator nor say is invoked. -/
theorem c5_missing_text_keyerror
    (get_answer : String → Except PyError String) (event : Event)
    (hct : event.channel_type = some "im")
    (htx : event.text = none) :
    (handle_message get_answer event).2.trace = [] ∧
    (handle_message get_answer event).2.outcome
      = Except.error (PyError.keyError "text") := by
  simp [handle_message, dictGet, hct, htx]

/-- Claim C5 instantiated at a concrete text-less direct-message event. -/
theorem c5_missing_text_keyerror_witness :
    (handle_message gaOk ⟨some "im", none, []⟩).2.trace = [] ∧
    (handle_message gaOk ⟨some "im", none, []⟩).2.outcome
      = Except.error (PyError.keyError "text") :=
  c5_missing_text_keyerror gaOk ⟨some "im", none, []⟩ rfl rfl

/-- Claim C6: the handler is stateless and deterministic in the event and
collaborator: two invocations with identical events each independently
invoke the collaborator once and send one reply, so the combined trace of
the two runs holds exactly two lookup calls and two replies, with no
deduplication: it is literally the single-run trace twice. -/
theorem c6_two_runs_two_lookups_two_replies
    (get_answer : String → Except PyError String) (event : Event)
    (T A : String)
    (hct : event.channel_type = some "im")
    (htx : event.text = some T)
    (hga : get_answer T = Except.ok A) :
    countLookup (twiceTrace get_answer event) = 2 ∧
    countSay (twiceTrace get_answer event) = 2 ∧
    twiceTrace get_answer event
      = [Call.lookup T, Call.say A, Call.lookup T, Call.say A] := by
  simp [twiceTrace, handle_message, dictGet, hct, htx, hga,
    countLookup, countSay]

/-- Claim C6 instantiated at a concrete event and collaborator. -/
theorem c6_two_runs_two_lookups_two_replies_witness :
    countLookup (twiceTrace gaOk ⟨some "im", some "ping", []⟩) = 2 ∧
    countSay (twiceTrace gaOk ⟨some "im", some "ping", []⟩) = 2 ∧
    twiceTrace gaOk ⟨some "im", some "ping", []⟩
      = [Call.lookup "ping", Call.say ("answer: " ++ "ping"),
         Call.lookup "ping", Call.say ("answer: " ++ "ping")] :=
  c6_two_runs_two_lookups_two_replies gaOk ⟨some "im", some "ping", []⟩
    "ping" ("answer: " ++ "ping") rfl rfl rfl

/-- Claim C7: in every execution of handle_message, every possible trace is
one of: no calls at all; a single lookup call (whose failure ended the
run); or a lookup call followed by a say call whose message is exactly
what the collaborator returned for that lookup in this same execution.
Hence the lookup always precedes the reply, and say is never invoked with
a string other than a value the collaborator returned in that run. -/
theorem c7_lookup_precedes_say
    (get_answer : String → Except PyError String) (event : Event) :
    (handle_message get_answer event).2.trace = [] ∨
    (∃ T, event.text = some T ∧
      (handle_message get_answer event).2.trace = [Call.lookup T]) ∨
    (∃ T A, event.text = some T ∧ get_answer T = Except.ok A ∧
      (handle_message get_answer event).2.trace
        = [Call.lookup T, Call.say A]) := by
  cases hc : event.channel_type with
  | none => simp [handle_message, dictGet, hc]
  | some ct =>
    by_cases hct : ct = "im"
    · subst hct
      cases ht : event.text with
      | none => simp [handle_message, dictGet, hc, ht]
      | some T =>
        cases hg : get_answer T with
        | error e =>
          refine Or.inr (Or.inl ⟨T, rfl, ?_⟩)
          simp [handle_message, dictGet, hc, ht, hg]
        | ok A =>
          refine Or.inr (Or.inr ⟨T, A, rfl, hg, ?_⟩)
          simp [handle_message, dictGet, hc, ht, hg]
    · simp [handle_message, dictGet, hc, hct]

/-- Claim C8: the handler leaves the event record unchanged and reads only
its channel_type and text fields: the event it hands back is the event it
received, and two events agreeing on those two fields produce identical
runs (identical calls and outcome), whatever other entries the event dict
carries. -/
theorem c8_event_unchanged_and_only_two_fields_read
    (get_answer : String → Except PyError String) (e1 e2 : Event)
    (hc : e1.channel_type = e2.channel_type)
    (ht : e1.text = e2.text) :
    (handle_message get_answer e1).1 = e1 ∧
    (handle_message get_answer e1).2.trace
      = (handle_message get_answer e2).2.trace ∧
    (handle_message get_answer e1).2.outcome
      = (handle_message get_answer e2).2.outcome := by
  refine ⟨?_, ?_, ?_⟩ <;>
    · cases hcc : e1.channel_type with
      | none => simp [handle_message, dictGet, hcc, hc ▸ hcc]
      | some ct =>
        by_cases him : ct = "im"
        · subst him
          cases htt : e1.text with
          | none => simp [handle_message, dictGet, hcc, hc ▸ hcc, htt, ht ▸ htt]
          | some T =>
            cases hg : get_answer T with
            | error e =>
              simp [handle_message, dictGet, hcc, hc ▸ hcc, htt, ht ▸ htt, hg]
            | ok A =>
              simp [handle_message, dictGet, hcc, hc ▸ hcc, htt, ht ▸ htt, hg]
        · simp [handle_message, dictGet, hcc, hc ▸ hcc, him]

/-- Claim C8 instantiated: two direct-message events with the same
channel_type and text but different other entries behave identically, and
the first is handed back unchanged. -/
theorem c8_event_unchanged_and_only_two_fields_read_witness :
    (handle_message gaOk ⟨some "im", some "hi", [("user", "U1")]⟩).1
      = ⟨some "im", some "hi", [("user", "U1")]⟩ ∧
    (handle_message gaOk ⟨some "im", some "hi", [("user", "U1")]⟩).2.trace
      = (handle_message gaOk ⟨some "im", some "hi", []⟩).2.trace ∧
    (handle_message gaOk ⟨some "im", some "hi", [("user", "U1")]⟩).2.outcome
      = (handle_message gaOk ⟨some "im", some "hi", []⟩).2.outcome :=
  c8_event_unchanged_and_only_two_fields_read gaOk
    ⟨some "im", some "hi", [("user", "U1")]⟩ ⟨some "im", some "hi", []⟩
    rfl rfl

/-- Claim C9: an event with no channel_type field at all raises
KeyError("channel_type") in the predicate itself, before any decision: the
run ends with that error, it is not silently ignored (the outcome is not a
normal return), and neither the collaborator nor say is ever invoked. -/
theorem c9_missing_channel_type_keyerror
    (get_answer : String → Except PyError String) (event : Event)
    (hct : event.channel_type = none) :
    (handle_message get_answer event).2.trace = [] ∧
    (handle_message get_answer event).2.outcome
      = Except.error (PyError.keyError "channel_type") := by
  simp [handle_message, dictGet, hct]

/-- Claim C9 instantiated at a concrete event lacking channel_type. -/
theorem c9_missing_channel_type_keyerror_witness :
    (handle_message gaOk ⟨none, some "hi", []⟩).2.trace = [] ∧
    (handle_message gaOk ⟨none, some "hi", []⟩).2.outcome
      = Except.error (PyError.keyError "channel_type") :=
  c9_missing_channel_type_keyerror gaOk ⟨none, some "hi", []⟩ rfl

/-- Claim C10: a direct-message event whose text is the empty string is
processed like any other: the collaborator is invoked with "" and its
return value is sent as the reply; no non-emptiness check exists. -/
theorem c10_empty_text_still_processed
    (get_answer : String → Except PyError String) (event : Event)
    (A : String)
    (hct : event.channel_type = some "im")
    (htx : event.text = some "")
    (hga : get_answer "" = Except.ok A) :
    (handle_message get_answer event).2.trace
      = [Call.lookup "", Call.say A] ∧
    (handle_message get_answer event).2.outcome = Except.ok () := by
  simp [handle_message, dictGet, hct, htx, hga]

/-- Claim C10 instantiated at a concrete empty-text direct message. -/
theorem c10_empty_text_still_processed_witness :
    (handle_message gaOk ⟨some "im", some "", []⟩).2.trace
      = [Call.lookup "", Call.say ("answer: " ++ "")] ∧
    (handle_message gaOk ⟨some "im", some "", []⟩).2.outcome = Except.ok () :=
  c10_empty_text_still_processed gaOk ⟨some "im", some "", []⟩
    ("answer: " ++ "") rfl rfl rfl

end SlackBot
